import Mathlib

/-!
Verification of the H6M BLE heart-rate reader against its specification.

The definitions below are a shallow embedding of the Python sources:
bytes are modelled as `Fin 256`, a Python `bytearray` as `List Byte`,
`None` results as `Option`, raised exceptions as `Except`.
-/

/-- A byte as stored in a Python bytearray: an integer in [0, 256). -/
abbrev Byte := Fin 256

/-! ## Heart-rate codec

`parse_heart_rate` from src/h6m_monitor/monitor.py (staticmethod of
H6MHeartRateMonitor):

* empty data returns None;
* byte 0 is the flags byte, `flags & 0x01` selects the format;
* format 0 with length at least 2 returns data[1];
* format 1 with length at least 3 returns
  `int.from_bytes(data[1:3], byteorder="little")`, i.e. data[1] + 256 * data[2];
* otherwise None.

The length guards `len(data) >= 2` and `len(data) >= 3` are rendered as
list patterns on the tail after the flags byte. -/
def parse_heart_rate : List Byte → Option Nat
  | [] => none
  | flags :: rest =>
    let hr_format := flags.val &&& 0x01
    if hr_format = 0 then
      match rest with
      | b1 :: _ => some b1.val
      | [] => none
    else
      match rest with
      | b1 :: b2 :: _ => some (b1.val + 256 * b2.val)
      | _ => none

/-- `parse_heart_rate` from src/h6m_ble_connect.py (staticmethod of the
standalone script's H6MHeartRateMonitor); transcribed from that file,
which carries the same body plus two comments. -/
def parse_heart_rate_connect : List Byte → Option Nat
  | [] => none
  | flags :: rest =>
    let hr_format := flags.val &&& 0x01
    if hr_format = 0 then
      match rest with
      | b1 :: _ => some b1.val
      | [] => none
    else
      match rest with
      | b1 :: b2 :: _ => some (b1.val + 256 * b2.val)
      | _ => none

/-- Python indexing `data[i]`: raises IndexError when out of bounds. -/
def py_getitem (data : List Byte) (i : Nat) : Except String Byte :=
  match data.get? i with
  | some b => Except.ok b
  | none => Except.error "IndexError"

/-- `parse_heart_rate` re-rendered with Python runtime semantics made
explicit: each subscript `data[i]` goes through `py_getitem` and any
IndexError surfaces in the `Except` layer instead of being hidden by the
total list patterns of `parse_heart_rate`.  An `Except.error` result
models the function aborting with an uncaught exception. -/
def parse_heart_rate_py (data : List Byte) : Except String (Option Nat) := do
  if data.isEmpty then
    return none
  let flags ← py_getitem data 0
  let hr_format := flags.val &&& 0x01
  if hr_format = 0 then
    if data.length ≥ 2 then
      let b1 ← py_getitem data 1
      return some b1.val
    else
      return none
  else
    if data.length ≥ 3 then
      let b1 ← py_getitem data 1
      let b2 ← py_getitem data 2
      return some (b1.val + 256 * b2.val)
    else
      return none

/-- Claim C1: if bit 0 of the flags byte is 0 and the payload has at least
two bytes, decode returns the unsigned 8-bit value at offset 1; if bit 0
is 1 and the payload has at least three bytes, decode returns the
little-endian 16-bit value at offsets 1..2. -/
theorem C1_decode_formats (b0 b1 b2 : Byte) (rest8 rest16 : List Byte) :
    (b0.val &&& 0x01 = 0 →
      parse_heart_rate (b0 :: b1 :: rest8) = some b1.val) ∧
    (b0.val &&& 0x01 = 1 →
      parse_heart_rate (b0 :: b1 :: b2 :: rest16) = some (b1.val + 256 * b2.val)) := by
  constructor
  · intro h
    simp [parse_heart_rate, h]
  · intro h
    simp [parse_heart_rate, h]

/-- Claim C1, witness: the worked examples of the spec,
`[0x00, 0x46]` decodes to 70 and `[0x01, 0x8C, 0x00]` decodes to 140. -/
theorem C1_decode_formats_witness :
    parse_heart_rate [(0x00 : Byte), 0x46] = some 70 ∧
    parse_heart_rate [(0x01 : Byte), 0x8C, 0x00] = some 140 := by
  refine ⟨?_, ?_⟩
  · exact (C1_decode_formats 0x00 0x46 0 [] []).1 (by decide)
  · exact (C1_decode_formats 0x01 0x8C 0x00 [] []).2 (by decide)

/-- Claim C2, counterexample: the code signals every decode failure with
the same untyped result `none`.  The empty payload (spec: EmptyPayload)
and a one-byte payload whose flags select the 16-bit format (spec:
Truncated) produce identical results, so the failure value does not
distinguish the cause, contradicting the claimed typed-error taxonomy. -/
theorem C2_untyped_failure_counterexample :
    parse_heart_rate [] = parse_heart_rate [(0x01 : Byte)] ∧
    parse_heart_rate [] = none := by
  constructor <;> rfl

/-- Claim C2, amended: decode of the empty sequence fails, and decode of a
non-empty sequence whose length is insufficient for the width selected by
bit 0 of the flags byte (length below 2 for the 8-bit format, below 3 for
the 16-bit format) fails, but every failure is reported as the single
undistinguished value `none` rather than a typed error. -/
theorem C2_failures_return_none (data : List Byte) :
    (data = [] → parse_heart_rate data = none) ∧
    (∀ b0 rest, data = b0 :: rest →
      ((b0.val &&& 0x01 = 0 ∧ data.length < 2) ∨
       (b0.val &&& 0x01 = 1 ∧ data.length < 3)) →
      parse_heart_rate data = none) := by
  constructor
  · intro h; subst h; rfl
  · rintro b0 rest rfl (⟨hf, hl⟩ | ⟨hf, hl⟩)
    · match rest with
      | [] => simp [parse_heart_rate, hf]
      | _ :: _ => simp at hl; omega
    · match rest with
      | [] => simp [parse_heart_rate, hf]
      | [_] => simp [parse_heart_rate, hf]
      | _ :: _ :: _ => simp at hl; omega

/-- Claim C2, witness: the amended statement applied to the empty payload
and to the truncated 16-bit payload `[0x01, 0x8C]`. -/
theorem C2_failures_return_none_witness :
    parse_heart_rate [] = none ∧
    parse_heart_rate [(0x01 : Byte), 0x8C] = none := by
  constructor
  · exact (C2_failures_return_none []).1 rfl
  · exact (C2_failures_return_none [(0x01 : Byte), 0x8C]).2 0x01 [0x8C] rfl
      (Or.inr ⟨by decide, by decide⟩)

/-- Claim C9: decode is total and never aborts.  For every byte sequence,
the rendering with explicit Python indexing semantics returns normally
(never an IndexError), and its result is exactly the value of the pure
function `parse_heart_rate`; determinism and freedom from side effects
hold because `parse_heart_rate` is a plain function of its input. -/
theorem C9_decode_total (data : List Byte) :
    parse_heart_rate_py data = Except.ok (parse_heart_rate data) := by
  match data with
  | [] => rfl
  | [b0] =>
    have h2 : b0.val &&& 0x01 = b0.val % 2 := Nat.and_one_is_mod _
    rcases Nat.mod_two_eq_zero_or_one b0.val with h | h <;>
      simp [parse_heart_rate_py, parse_heart_rate, py_getitem, bind, Except.bind, pure, Except.pure, h2, h]
  | [b0, b1] =>
    have h2 : b0.val &&& 0x01 = b0.val % 2 := Nat.and_one_is_mod _
    rcases Nat.mod_two_eq_zero_or_one b0.val with h | h <;>
      simp [parse_heart_rate_py, parse_heart_rate, py_getitem, bind, Except.bind, pure, Except.pure, h2, h]
  | b0 :: b1 :: b2 :: rest =>
    have h2 : b0.val &&& 0x01 = b0.val % 2 := Nat.and_one_is_mod _
    rcases Nat.mod_two_eq_zero_or_one b0.val with h | h <;>
      simp [parse_heart_rate_py, parse_heart_rate, py_getitem, bind, Except.bind, pure, Except.pure, h2, h]

/-- Claim C10: the codec of the standalone script and the codec of the
monitor package are extensionally equal: every byte sequence is decoded
to the same result. -/
theorem C10_codecs_equal (data : List Byte) :
    parse_heart_rate_connect data = parse_heart_rate data := rfl

/-! ## Text-file sink

The text sink in `HeartRateOutputManager.write_heart_rate`
(src/h6m_monitor/outputs.py) performs `seek(0)`, `write(f"{hr} bpm")`,
`truncate()`, `flush()` on an open text file.  A file handle is modelled
as its character content together with the current position; `flush` has
no effect on content. -/

structure TextFile where
  content : List Char
  pos : Nat
deriving DecidableEq, Repr

/-- Python `file.seek(n)`: move the position. -/
def TextFile.seek (f : TextFile) (n : Nat) : TextFile :=
  { f with pos := n }

/-- Python `file.write(s)`: overwrite `s.length` characters starting at
the current position (padding is irrelevant here because writes happen at
position 0) and advance the position. -/
def TextFile.write (f : TextFile) (s : List Char) : TextFile :=
  { content := f.content.take f.pos ++ s ++ f.content.drop (f.pos + s.length),
    pos := f.pos + s.length }

/-- Python `file.truncate()`: cut the content at the current position. -/
def TextFile.truncate (f : TextFile) : TextFile :=
  { f with content := f.content.take f.pos }

/-- The record written for a sample: the Python f-string `f"{hr} bpm"`. -/
def txt_record (hr : Nat) : List Char :=
  (toString hr ++ " bpm").data

/-- The text-sink branch of `write_heart_rate`:
`seek(0)`, `write(f"{hr} bpm")`, `truncate()`. -/
def write_txt (f : TextFile) (hr : Nat) : TextFile :=
  ((f.seek 0).write (txt_record hr)).truncate

/-! ## Monitor state and notification handling

State of one `H6MHeartRateMonitor` (src/h6m_monitor/monitor.py) together
with its `HeartRateOutputManager` (src/h6m_monitor/outputs.py): the
latest heart rate, the two enable flags, and the sink handles (`none`
models a Python `None` handle).  The CSV file is modelled as the list of
data rows written so far, each row a `(timestamp, bpm)` pair; the
timestamp string produced by `datetime.now().strftime` is an input of the
write, not computed in the model. -/

structure MonitorState where
  latest_hr : Nat
  enable_txt_output : Bool
  enable_csv_output : Bool
  txt_file : Option TextFile
  csv_rows : Option (List (String × Nat))
deriving DecidableEq, Repr

/-- `H6MHeartRateMonitor.__init__`: `latest_hr` starts at 0 and both sink
handles start as `None` (files are only opened later by `open_files`). -/
def monitor_init (enable_txt_output enable_csv_output : Bool) : MonitorState :=
  { latest_hr := 0,
    enable_txt_output := enable_txt_output,
    enable_csv_output := enable_csv_output,
    txt_file := none,
    csv_rows := none }

/-- `H6MHeartRateMonitor.get_latest_hr`. -/
def get_latest_hr (st : MonitorState) : Nat :=
  st.latest_hr

/-- `HeartRateOutputManager.write_heart_rate`: if the text sink is enabled
and its file is open, overwrite the record; if the CSV sink is enabled and
its file is open, append a `(timestamp, hr)` row. -/
def write_heart_rate (st : MonitorState) (now : String) (hr : Nat) : MonitorState :=
  let st1 :=
    match st.enable_txt_output, st.txt_file with
    | true, some f => { st with txt_file := some (write_txt f hr) }
    | _, _ => st
  match st1.enable_csv_output, st1.csv_rows with
  | true, some rows => { st1 with csv_rows := some (rows ++ [(now, hr)]) }
  | _, _ => st1

/-- `H6MHeartRateMonitor.hr_measurement_handler`: parse the notification
bytes; on success store the value in `latest_hr` and call
`write_heart_rate`; on parse failure only print a message (no state
change).  The handler is a total function into `MonitorState`, so it
returns normally on every input and never tears down the stream. -/
def hr_measurement_handler (st : MonitorState) (now : String) (data : List Byte) :
    MonitorState :=
  match parse_heart_rate data with
  | some hr => write_heart_rate { st with latest_hr := hr } now hr
  | none => st

/-- Claim C5: a notification whose bytes fail to decode leaves the whole
monitor state untouched: the latest value keeps its previous (possibly
valid) sample, no text or CSV sink write happens, and the handler returns
normally so the notification stream continues. -/
theorem C5_decode_failure_no_effect (st : MonitorState) (now : String)
    (data : List Byte) (h : parse_heart_rate data = none) :
    hr_measurement_handler st now data = st := by
  simp [hr_measurement_handler, h]

/-- Claim C5, witness: the truncated payload `[0x01]` fails to decode and
leaves a monitor holding the previous sample 140 unchanged. -/
theorem C5_decode_failure_no_effect_witness :
    hr_measurement_handler
      { latest_hr := 140, enable_txt_output := true, enable_csv_output := true,
        txt_file := some ⟨[], 0⟩, csv_rows := some [] }
      "2024-01-01 00:00:00" [(0x01 : Byte)] =
    { latest_hr := 140, enable_txt_output := true, enable_csv_output := true,
      txt_file := some ⟨[], 0⟩, csv_rows := some [] } :=
  C5_decode_failure_no_effect _ _ _ rfl

/-- Claim C7: a notification that decodes to `hr` sets the latest value to
`hr` and delivers `hr` to every active sink: the enabled-and-open text
sink is overwritten with the record for `hr`, and the enabled-and-open
CSV sink gets one appended `(timestamp, hr)` row. -/
theorem C7_decode_success_delivers (st : MonitorState) (now : String)
    (data : List Byte) (hr : Nat) (h : parse_heart_rate data = some hr) :
    (hr_measurement_handler st now data).latest_hr = hr ∧
    (∀ f, st.enable_txt_output = true → st.txt_file = some f →
      (hr_measurement_handler st now data).txt_file = some (write_txt f hr)) ∧
    (∀ rows, st.enable_csv_output = true → st.csv_rows = some rows →
      (hr_measurement_handler st now data).csv_rows = some (rows ++ [(now, hr)])) := by
  refine ⟨?_, ?_, ?_⟩
  · simp only [hr_measurement_handler, h, write_heart_rate]
    rcases hst : st.enable_txt_output with _ | _ <;>
      rcases hf : st.txt_file with _ | f <;>
        rcases hsc : st.enable_csv_output with _ | _ <;>
          rcases hr' : st.csv_rows with _ | rows <;> simp [hst, hf, hsc, hr']
  · intro f htxt hf
    simp only [hr_measurement_handler, h, write_heart_rate, htxt, hf]
    rcases hsc : st.enable_csv_output with _ | _ <;>
      rcases hr' : st.csv_rows with _ | rows <;> simp [hsc, hr']
  · intro rows hcsv hrows
    simp only [hr_measurement_handler, h, write_heart_rate, hcsv, hrows]
    rcases hst : st.enable_txt_output with _ | _ <;>
      rcases hf : st.txt_file with _ | f <;> simp [hst, hf, hcsv, hrows]

/-- Claim C7, witness: the payload `[0x00, 0x4B]` decodes to 75; handling
it on a monitor with both sinks open stores 75 and writes 75 to both. -/
theorem C7_decode_success_delivers_witness :
    (hr_measurement_handler
      { latest_hr := 0, enable_txt_output := true, enable_csv_output := true,
        txt_file := some ⟨[], 0⟩, csv_rows := some [] }
      "2024-01-01 00:00:00" [(0x00 : Byte), 0x4B]).latest_hr = 75 ∧
    (hr_measurement_handler
      { latest_hr := 0, enable_txt_output := true, enable_csv_output := true,
        txt_file := some ⟨[], 0⟩, csv_rows := some [] }
      "2024-01-01 00:00:00" [(0x00 : Byte), 0x4B]).txt_file =
      some (write_txt ⟨[], 0⟩ 75) ∧
    (hr_measurement_handler
      { latest_hr := 0, enable_txt_output := true, enable_csv_output := true,
        txt_file := some ⟨[], 0⟩, csv_rows := some [] }
      "2024-01-01 00:00:00" [(0x00 : Byte), 0x4B]).csv_rows =
      some [("2024-01-01 00:00:00", 75)] := by
  have h := C7_decode_success_delivers
    { latest_hr := 0, enable_txt_output := true, enable_csv_output := true,
      txt_file := some ⟨[], 0⟩, csv_rows := some [] }
    "2024-01-01 00:00:00" [(0x00 : Byte), 0x4B] 75 rfl
  exact ⟨h.1, h.2.1 ⟨[], 0⟩ rfl rfl, h.2.2 [] rfl rfl⟩

/-- Claim C8: delivery to the text sink has truncate-and-rewrite
semantics: whatever the previous content and position of the file, after
`write_txt` the entire content is exactly the decimal value followed by
the unit suffix — one logical record, never appended history. -/
theorem C8_txt_overwrite (f : TextFile) (hr : Nat) :
    (write_txt f hr).content = txt_record hr := by
  simp [write_txt, TextFile.seek, TextFile.write, TextFile.truncate,
    List.take_left]

/-! ## Device session life cycle

`H6MHeartRateMonitor.run` together with `scan_ble_devices`
(src/h6m_monitor/monitor.py).  The control flow of `run` is:

* `scan_ble_devices` loops, re-issuing discovery every 5 seconds, until a
  device whose name contains the target substring is found — this runs
  once, before the connection loop;
* `while True`: open a `BleakClient` on the stored `device`; if the
  client reports not-connected, sleep 5 seconds and `continue` — which
  retries the connection on the same `device`, without re-scanning;
* once connected and subscribed, an inner loop checks `is_connected`
  every second and raises `ConnectionError` on link loss; the generic
  `except Exception` handler sleeps 5 seconds and `continue`s — again
  back to connecting on the same `device`;
* only `KeyboardInterrupt` (external cancellation) breaks the loop.

The loop is embedded as a labelled transition system on the spec's
session states. -/

inductive SessionState where
  | Scanning
  | Connecting
  | Subscribed
  | Backoff
  | Stopped
deriving DecidableEq, Repr

inductive SessionEvent where
  /-- discovery reported a device with the target name substring -/
  | deviceFound
  /-- the discovery window elapsed without a matching device -/
  | noDeviceFound
  /-- the BLE client reports connected; notifications subscribed -/
  | connectOk
  /-- the connection attempt failed or the stack reports not-connected -/
  | connectFail
  /-- `is_connected` turned false while subscribed (ConnectionError) -/
  | linkLoss
  /-- one-second liveness tick with the link still up -/
  | tick
  /-- the 5-second backoff sleep finished -/
  | backoffElapsed
  /-- external cancellation (KeyboardInterrupt) -/
  | cancel
deriving DecidableEq, Repr

/-- The delay slept in `scan_ble_devices` between discovery rounds
(`await asyncio.sleep(5)`). -/
def scan_retry_delay_seconds : Nat := 5

/-- The delay slept before a reconnection attempt, in both the
not-connected branch and the `except Exception` branch of `run`
(`await asyncio.sleep(5)`). -/
def backoff_delay_seconds : Nat := 5

/-- One transition of the session as implemented by `run` and
`scan_ble_devices`.  The decisive line is the `Backoff` row: after the
5-second sleep the code executes `continue`, which re-enters
`BleakClient(device)` on the already-discovered device — it does not
return to `scan_ble_devices`. -/
def session_step : SessionState → SessionEvent → SessionState
  | _, .cancel => .Stopped
  | .Scanning, .deviceFound => .Connecting
  | .Scanning, .noDeviceFound => .Scanning
  | .Connecting, .connectOk => .Subscribed
  | .Connecting, .connectFail => .Backoff
  | .Subscribed, .linkLoss => .Backoff
  | .Subscribed, .tick => .Subscribed
  | .Backoff, .backoffElapsed => .Connecting
  | s, _ => s

/-- Claim C3, counterexample: after the backoff delay the session does
not re-enter Scanning.  The code's `continue` goes straight back to the
connection attempt on the device discovered before the loop started, so
device discovery is not reissued. -/
theorem C3_backoff_rescan_counterexample :
    session_step SessionState.Backoff SessionEvent.backoffElapsed ≠
      SessionState.Scanning := by
  decide

/-- Claim C3, amended: losing the link while Subscribed (or a failed
connection attempt) moves the session to Backoff; after the fixed
5-second delay it re-enters Connecting against the same already-found
device rather than reissuing discovery; and the session never stops on
its own — Stopped is reachable only through the external cancellation
event. -/
theorem C3_backoff_reconnects_same_device :
    session_step SessionState.Subscribed SessionEvent.linkLoss =
      SessionState.Backoff ∧
    session_step SessionState.Connecting SessionEvent.connectFail =
      SessionState.Backoff ∧
    backoff_delay_seconds = 5 ∧
    session_step SessionState.Backoff SessionEvent.backoffElapsed =
      SessionState.Connecting ∧
    (∀ s e, session_step s e = SessionState.Stopped →
      s = SessionState.Stopped ∨ e = SessionEvent.cancel) := by
  refine ⟨rfl, rfl, rfl, rfl, ?_⟩
  intro s e h
  cases s <;> cases e <;> simp_all [session_step]

/-- Claim C3, witness: the only-cancellation-stops clause applied at a
concrete transition: a Backoff-state step that lands in Stopped must have
been a cancellation. -/
theorem C3_backoff_reconnects_same_device_witness :
    SessionState.Backoff = SessionState.Stopped ∨
      SessionEvent.cancel = SessionEvent.cancel :=
  C3_backoff_reconnects_same_device.2.2.2.2 SessionState.Backoff
    SessionEvent.cancel (by decide)

/-! ## Sink opening at startup

`HeartRateOutputManager.open_files` (src/h6m_monitor/outputs.py) and the
startup portion of `H6MHeartRateMonitor.run` (src/h6m_monitor/monitor.py).
`open_files` contains no try/except: a failing `open` raises out of it.
In `run`, the call `self.outputs.open_files()` sits before the
`try` block, so the exception propagates out of `run` and ends the whole
monitor.  The outcome of each `open` call is an input of the model. -/

inductive OpenOutcome where
  /-- the `open` call returns a file object -/
  | ok
  /-- the `open` call raises an OSError -/
  | ioError
deriving DecidableEq, Repr

/-- `HeartRateOutputManager.open_files`: open the text file when the text
sink is enabled, then create the logs directory and open the CSV file
when the CSV sink is enabled.  Each failing `open` raises (is thrown);
the result records which handles were set. -/
def open_files (enable_txt_output enable_csv_output : Bool)
    (txt_open csv_open : OpenOutcome) : Except String (Bool × Bool) := do
  let txt ←
    if enable_txt_output then
      match txt_open with
      | .ok => pure true
      | .ioError => throw "OSError"
    else
      pure false
  let csv ←
    if enable_csv_output then
      match csv_open with
      | .ok => pure true
      | .ioError => throw "OSError"
    else
      pure false
  pure (txt, csv)

/-- The startup sequence of `run` after discovery: call `open_files`
(uncaught — any exception propagates and aborts `run`), then start the
TCP server when enabled.  On success it reports which sinks are open and
whether the TCP server was started; an `Except.error` result is the
monitor run aborting with an uncaught exception. -/
def run_startup (enable_txt_output enable_csv_output enable_tcp : Bool)
    (txt_open csv_open : OpenOutcome) : Except String (Bool × Bool × Bool) := do
  let (txt, csv) ← open_files enable_txt_output enable_csv_output txt_open csv_open
  pure (txt, csv, enable_tcp)

/-- Claim C4, counterexample: with both sinks and the TCP server enabled,
a failure to open the text file aborts the whole startup — the CSV sink
is never opened, the TCP server is never started and the device session
is never entered, instead of only the text sink being disabled. -/
theorem C4_startup_failure_counterexample :
    run_startup true true true OpenOutcome.ioError OpenOutcome.ok =
      Except.error "OSError" := rfl

/-- Claim C4, amended: if opening the text sink or the CSV sink fails at
startup, the exception propagates uncaught out of `open_files` and out of
`run`: the monitor as a whole is aborted, no sink is selectively
disabled, and the rest of the system does not continue. -/
theorem C4_startup_failure_aborts (enable_txt_output enable_csv_output
    enable_tcp : Bool) (txt_open csv_open : OpenOutcome) :
    (enable_txt_output = true → txt_open = OpenOutcome.ioError →
      run_startup enable_txt_output enable_csv_output enable_tcp
        txt_open csv_open = Except.error "OSError") ∧
    (enable_csv_output = true → csv_open = OpenOutcome.ioError →
      txt_open = OpenOutcome.ok →
      run_startup enable_txt_output enable_csv_output enable_tcp
        txt_open csv_open = Except.error "OSError") := by
  constructor
  · rintro rfl rfl
    simp [run_startup, open_files, bind, Except.bind, throw, throwThe,
      MonadExceptOf.throw]
  · rintro rfl rfl rfl
    rcases enable_txt_output with _ | _ <;>
      simp [run_startup, open_files, bind, Except.bind, pure, Except.pure,
        throw, throwThe, MonadExceptOf.throw]

/-- Claim C4, witness: the amended statement at concrete configurations —
a text-open failure and a CSV-open failure each abort the startup. -/
theorem C4_startup_failure_aborts_witness :
    run_startup true true true OpenOutcome.ioError OpenOutcome.ioError =
      Except.error "OSError" ∧
    run_startup true true true OpenOutcome.ok OpenOutcome.ioError =
      Except.error "OSError" := by
  constructor
  · exact (C4_startup_failure_aborts true true true OpenOutcome.ioError
      OpenOutcome.ioError).1 rfl rfl
  · exact (C4_startup_failure_aborts true true true OpenOutcome.ok
      OpenOutcome.ioError).2 rfl rfl rfl

/-! ## TCP broadcast loop

One iteration of `HeartRateTCPServer._broadcast_loop`
(src/h6m_monitor/tcp_server.py).  A connected client is a StreamWriter
in the set `tcp_clients`; the model records its identity and whether
`write`/`drain` succeeds on it this tick.  The loop body is:

* if `tcp_clients` is non-empty, read `get_latest_hr()` and build the
  message `f"{hr}\n"`;
* iterate over `list(self.tcp_clients)` — a snapshot of the registry
  taken before the first write;
* per writer: attempt the write; on an exception, discard (remove from
  the live registry if still present) and close that writer only.

`bcast_send` walks the snapshot while threading the live registry; its
result records the surviving registry, the deliveries made (writer id
and message), and the ids of the closed writers. -/

structure StreamWriter where
  id : Nat
  writeOk : Bool
deriving DecidableEq, Repr

structure TickResult where
  remaining : List StreamWriter
  delivered : List (Nat × String)
  closed : List Nat
deriving DecidableEq, Repr

/-- The per-writer loop of `_broadcast_loop`: first argument after the
message is the live registry `tcp_clients`, second the snapshot
`list(self.tcp_clients)` still to process. -/
def bcast_send (msg : String) : List StreamWriter → List StreamWriter → TickResult
  | reg, [] => ⟨reg, [], []⟩
  | reg, w :: ws =>
    if w.writeOk then
      let r := bcast_send msg reg ws
      ⟨r.remaining, (w.id, msg) :: r.delivered, r.closed⟩
    else
      let r := bcast_send msg (reg.erase w) ws
      ⟨r.remaining, r.delivered, w.id :: r.closed⟩

/-- One tick of `_broadcast_loop`: nothing happens on an empty registry;
otherwise the current latest value is read through `get_latest_hr` and
sent, newline-terminated, over the snapshot of the registry. -/
def broadcast_tick (reg : List StreamWriter) (st : MonitorState) : TickResult :=
  if reg.isEmpty then ⟨reg, [], []⟩
  else bcast_send (toString (get_latest_hr st) ++ "\n") reg reg

/-- Every writer of the snapshot whose write succeeds receives the
message, regardless of failures elsewhere in the snapshot. -/
theorem bcast_send_delivered_of_ok (msg : String) (w : StreamWriter)
    (hok : w.writeOk = true) :
    ∀ (snap reg : List StreamWriter), w ∈ snap →
      (w.id, msg) ∈ (bcast_send msg reg snap).delivered := by
  intro snap
  induction snap with
  | nil => intro reg h; exact absurd h (List.not_mem_nil _)
  | cons w' ws ih =>
    intro reg h
    rcases List.mem_cons.mp h with rfl | hmem
    · simp [bcast_send, hok]
    · by_cases hw' : w'.writeOk = true
      · simpa [bcast_send, hw'] using Or.inr (ih reg hmem)
      · simpa [bcast_send, hw'] using ih (reg.erase w') hmem

/-- Every writer of the snapshot whose write fails is closed. -/
theorem bcast_send_closed_of_fail (msg : String) (w : StreamWriter)
    (hfail : w.writeOk = false) :
    ∀ (snap reg : List StreamWriter), w ∈ snap →
      w.id ∈ (bcast_send msg reg snap).closed := by
  intro snap
  induction snap with
  | nil => intro reg h; exact absurd h (List.not_mem_nil _)
  | cons w' ws ih =>
    intro reg h
    rcases List.mem_cons.mp h with rfl | hmem
    · simp [bcast_send, hfail]
    · by_cases hw' : w'.writeOk = true
      · simpa [bcast_send, hw'] using ih reg hmem
      · by_cases hww' : w = w'
        · subst hww'; simp [bcast_send, hfail]
        · simpa [bcast_send, hw'] using Or.inr (ih (reg.erase w') hmem)

/-- A writer whose write succeeds is never removed from the registry. -/
theorem bcast_send_remaining_of_ok (msg : String) (w : StreamWriter)
    (hok : w.writeOk = true) :
    ∀ (snap reg : List StreamWriter), w ∈ reg →
      w ∈ (bcast_send msg reg snap).remaining := by
  intro snap
  induction snap with
  | nil => intro reg h; simpa [bcast_send] using h
  | cons w' ws ih =>
    intro reg h
    by_cases hw' : w'.writeOk = true
    · simpa [bcast_send, hw'] using ih reg h
    · have hne : w ≠ w' := by
        intro he; rw [he] at hok; exact hw' hok
      simpa [bcast_send, hw'] using ih (reg.erase w')
        ((List.mem_erase_of_ne hne).mpr h)

/-- The surviving registry is a sublist of the registry the tick started
from: the loop only removes writers, it never invents one. -/
theorem bcast_send_remaining_sublist (msg : String) :
    ∀ (snap reg : List StreamWriter),
      List.Sublist (bcast_send msg reg snap).remaining reg := by
  intro snap
  induction snap with
  | nil => intro reg; simp [bcast_send]
  | cons w' ws ih =>
    intro reg
    by_cases hw' : w'.writeOk = true
    · simpa [bcast_send, hw'] using ih reg
    · have h1 : List.Sublist (bcast_send msg (reg.erase w') ws).remaining
          (reg.erase w') := ih (reg.erase w')
      simpa [bcast_send, hw'] using h1.trans (List.erase_sublist w' reg)

/-- With a duplicate-free registry (it is a Python set), a writer of the
snapshot whose write fails does not survive in the registry. -/
theorem bcast_send_fail_removed (msg : String) (w : StreamWriter)
    (hfail : w.writeOk = false) :
    ∀ (snap reg : List StreamWriter), reg.Nodup → w ∈ snap →
      w ∉ (bcast_send msg reg snap).remaining := by
  intro snap
  induction snap with
  | nil => intro reg _ h; exact absurd h (List.not_mem_nil _)
  | cons w' ws ih =>
    intro reg hnd h
    rcases List.mem_cons.mp h with rfl | hmem
    · simp only [bcast_send, hfail, Bool.false_eq_true, if_false]
      intro hcontra
      have hsub := bcast_send_remaining_sublist msg ws (reg.erase w)
      have hin : w ∈ reg.erase w := hsub.subset hcontra
      exact absurd ((hnd.mem_erase_iff).mp hin).1 (by simp)
    · by_cases hw' : w'.writeOk = true
      · simpa [bcast_send, hw'] using ih reg hnd hmem
      · simpa [bcast_send, hw'] using ih (reg.erase w') (hnd.erase w') hmem

/-- Claim C6: on a tick with a non-empty registry, the loop reads the
monitor's current latest value (which a freshly initialised monitor holds
as 0) and sends its ASCII decimal rendering plus a newline to the
snapshot of the registry: every writer whose write succeeds receives the
message and stays registered; every writer whose write fails is closed
and removed, without affecting delivery to the others. -/
theorem C6_broadcast_isolation (reg : List StreamWriter) (st : MonitorState)
    (hne : reg ≠ []) (hnd : reg.Nodup) :
    (∀ w, w ∈ reg → w.writeOk = true →
      (w.id, toString (get_latest_hr st) ++ "\n") ∈
        (broadcast_tick reg st).delivered) ∧
    (∀ w, w ∈ reg → w.writeOk = true →
      w ∈ (broadcast_tick reg st).remaining) ∧
    (∀ w, w ∈ reg → w.writeOk = false →
      w.id ∈ (broadcast_tick reg st).closed ∧
        w ∉ (broadcast_tick reg st).remaining) ∧
    (∀ et ec, get_latest_hr (monitor_init et ec) = 0) := by
  have hni : reg.isEmpty = false := by
    cases reg
    · exact absurd rfl hne
    · rfl
  refine ⟨?_, ?_, ?_, fun _ _ => rfl⟩
  · intro w hw hok
    simpa [broadcast_tick, hni] using
      bcast_send_delivered_of_ok _ w hok reg reg hw
  · intro w hw hok
    simpa [broadcast_tick, hni] using
      bcast_send_remaining_of_ok _ w hok reg reg hw
  · intro w hw hfail
    refine ⟨?_, ?_⟩
    · simpa [broadcast_tick, hni] using
        bcast_send_closed_of_fail _ w hfail reg reg hw
    · simpa [broadcast_tick, hni] using
        bcast_send_fail_removed _ w hfail reg reg hnd hw

/-- Claim C6, witness: a registry with one healthy and one failing
subscriber and latest value 75 — the healthy one receives the rendered
message and the failing one is closed and removed while delivery to the
healthy one still happens. -/
theorem C6_broadcast_isolation_witness :
    ((1 : Nat), toString (75 : Nat) ++ "\n") ∈
      (broadcast_tick [⟨1, true⟩, ⟨2, false⟩]
        ⟨75, false, false, none, none⟩).delivered ∧
    StreamWriter.mk 1 true ∈
      (broadcast_tick [⟨1, true⟩, ⟨2, false⟩]
        ⟨75, false, false, none, none⟩).remaining ∧
    (2 : Nat) ∈
      (broadcast_tick [⟨1, true⟩, ⟨2, false⟩]
        ⟨75, false, false, none, none⟩).closed := by
  have h := C6_broadcast_isolation [⟨1, true⟩, ⟨2, false⟩]
    ⟨75, false, false, none, none⟩ (by decide) (by decide)
  exact ⟨h.1 ⟨1, true⟩ (by simp) rfl, h.2.1 ⟨1, true⟩ (by simp) rfl,
    (h.2.2.1 ⟨2, false⟩ (by simp) rfl).1⟩
